import Mathlib

/-!
Verification of the cookie-path validator and driver script of the
AnuIndustries repository (`scripts/download_apple_music.py`).

The script's only in-repository logic is `validate_cookies_path`, which
resolves a candidate path against the current working directory and checks
that a regular file exists there, raising `FileNotFoundError` with a fixed
diagnostic message otherwise.  We embed the filesystem as an explicit state
(current working directory plus a finite map from absolute paths to file
kinds), model the two platform primitives the function calls
(`Path.resolve` and `Path.is_file`) as read-only state-passing operations,
and embed the function itself as explicit state passing.  The driver
`main` is modelled as the trace of events it performs, with the external
gamdl library's responses abstracted as an oracle.
-/

set_option autoImplicit false

namespace AnuIndustries

/-- The kind of filesystem object present at a path: a regular file, a
directory, or any other kind of object (socket, device, ...). -/
inductive FileKind where
  | file
  | dir
  | other
deriving DecidableEq, Repr

/-- A filesystem state: the current working directory (as a list of path
segments from the root, already normalized) and a finite map from absolute
paths (segment lists) to the kind of object present there.  Paths absent
from `entries` do not exist. -/
structure FS where
  cwd : List String
  entries : List (List String × FileKind)
deriving DecidableEq, Repr

/-- Split a raw path string into its `/`-separated components. -/
def splitRaw : List Char → List Char → List String
  | [], cur => [String.mk cur.reverse]
  | c :: cs, cur =>
    if c = '/' then String.mk cur.reverse :: splitRaw cs []
    else splitRaw cs (c :: cur)

/-- The meaningful segments of a path string: components that are neither
empty nor the `.` self-reference (POSIX path parsing as done by
`pathlib.PurePath`). -/
def splitSegs (s : String) : List String :=
  (splitRaw s.toList []).filter (fun seg => seg != "" && seg != ".")

/-- Whether a path string is absolute (starts with `/`). -/
def isAbsolutePath (s : String) : Bool :=
  s.toList.head? == some '/'

/-- Normalize a segment list against a base absolute path: `..` removes the
last segment (staying at the root when already there), every other segment
is appended.  This is `Path.resolve`'s treatment of relative segments in a
symlink-free filesystem. -/
def normalizeSegs (base : List String) (segs : List String) : List String :=
  segs.foldl (fun acc seg => if seg = ".." then acc.dropLast else acc ++ [seg]) base

/-- Resolve a path string against a working directory: absolute paths start
from the root, relative paths from the working directory; `.`/`..`/empty
segments are normalized away.  Models `pathlib.Path(s).resolve()`. -/
def resolvePath (cwd : List String) (s : String) : List String :=
  normalizeSegs (if isAbsolutePath s then [] else cwd) (splitSegs s)

/-- Render an absolute path (segment list) as its POSIX string form, as
`str()` of a `pathlib.Path` does: `/a/b`, and `/` for the root. -/
def pathToString (p : List String) : String :=
  "/" ++ String.intercalate "/" p

/-- Look up the kind of object at an absolute path, `none` if nothing
exists there. -/
def lookupKind (entries : List (List String × FileKind)) (p : List String) :
    Option FileKind :=
  match entries.find? (fun e => e.1 == p) with
  | some e => some e.2
  | none => none

/-- The platform primitive `Path(s).resolve()`: a read-only filesystem
operation returning the resolved absolute path and the (unchanged)
filesystem. -/
def Path_resolve (fs : FS) (s : String) : List String × FS :=
  (resolvePath fs.cwd s, fs)

/-- The platform primitive `path.is_file()`: a read-only filesystem
operation -- true exactly when a regular file exists at the path. -/
def Path_is_file (fs : FS) (p : List String) : Bool × FS :=
  (lookupKind fs.entries p == some FileKind.file, fs)

/-- Python exception values raised by this component: the specific
`FileNotFoundError` used for the missing-cookies condition, and generic
`OSError` for any other I/O failure (never raised by this component). -/
inductive PyError where
  | fileNotFoundError (msg : String)
  | osError (msg : String)
deriving DecidableEq, Repr

/-- Embedding of `validate_cookies_path` (scripts/download_apple_music.py,
lines 12-27): resolve the candidate path, and if no regular file exists at
the resolved location raise `FileNotFoundError` with the fixed diagnostic
message; otherwise return the resolved path.  The filesystem state is
threaded explicitly; the function only ever reads it. -/
def validate_cookies_path (fs : FS) (cookies_path : String) :
    Except PyError (List String) × FS :=
  let r := Path_resolve fs cookies_path
  let path := r.1
  let c := Path_is_file r.2 path
  if c.1 = false then
    (Except.error (PyError.fileNotFoundError
      ("Missing Apple Music cookies file at \x27" ++ pathToString path ++
        "\x27. Create a Netscape-format cookies.txt export before running downloads.")),
      c.2)
  else
    (Except.ok path, c.2)

/-- `validate_cookies_path` called with no argument: the parameter defaults
to the literal relative name `cookies.txt`. -/
def validate_cookies_path_default (fs : FS) : Except PyError (List String) × FS :=
  validate_cookies_path fs "cookies.txt"

/-- The observable events of `main` (scripts/download_apple_music.py,
lines 30-108), in source order: the validator call, then the construction
and setup of each external-library object, the URL lookup, and the
download attempts. -/
inductive MainEvent where
  | validateCookies
  | constructAppleMusicApi
  | setupAppleMusicApi
  | constructItunesApi
  | setupItunesApi
  | constructInterface
  | constructSongInterface
  | constructMusicVideoInterface
  | constructUploadedVideoInterface
  | constructBaseDownloader
  | setupBaseDownloader
  | constructSongDownloader
  | constructMusicVideoDownloader
  | constructUploadedVideoDownloader
  | constructDownloader
  | getUrlInfo
  | downloadAttempt
deriving DecidableEq, Repr

/-- Oracle for the external gamdl library's responses in `main`: whether
`get_url_info` returns a truthy value, and the download queue
`get_download_queue` would return. -/
structure GamdlWorld where
  urlInfoFound : Bool
  downloadQueue : List Nat
deriving DecidableEq, Repr

/-- Embedding of `main` as its event trace.  `validate_cookies_path()` is
called first; a raised `FileNotFoundError` propagates, so on failure the
trace ends there and no object is constructed.  On success the external
objects are constructed in source order, `get_url_info` is called, and a
download is attempted per queue item when the URL was recognised and the
queue is non-empty. -/
def main_trace (fs : FS) (g : GamdlWorld) : List MainEvent :=
  match (validate_cookies_path_default fs).1 with
  | Except.error _ => [MainEvent.validateCookies]
  | Except.ok _ =>
    [MainEvent.validateCookies,
     MainEvent.constructAppleMusicApi, MainEvent.setupAppleMusicApi,
     MainEvent.constructItunesApi, MainEvent.setupItunesApi,
     MainEvent.constructInterface, MainEvent.constructSongInterface,
     MainEvent.constructMusicVideoInterface, MainEvent.constructUploadedVideoInterface,
     MainEvent.constructBaseDownloader, MainEvent.setupBaseDownloader,
     MainEvent.constructSongDownloader, MainEvent.constructMusicVideoDownloader,
     MainEvent.constructUploadedVideoDownloader, MainEvent.constructDownloader,
     MainEvent.getUrlInfo] ++
    (if g.urlInfoFound then
      (if g.downloadQueue.isEmpty then []
       else g.downloadQueue.map (fun _ => MainEvent.downloadAttempt))
     else [])

/-- A concrete filesystem used by witnesses: the working directory
`/home/anu` holds a regular file `cookies.txt` and a subdirectory
`music`. -/
def fsWith : FS :=
  { cwd := ["home", "anu"],
    entries := [(["home", "anu"], FileKind.dir),
                (["home", "anu", "cookies.txt"], FileKind.file),
                (["home", "anu", "music"], FileKind.dir),
                (["etc"], FileKind.dir)] }

/-- A concrete filesystem used by witnesses: the working directory
`/home/anu` exists but holds no `cookies.txt`. -/
def fsWithout : FS :=
  { cwd := ["home", "anu"],
    entries := [(["home", "anu"], FileKind.dir), (["etc"], FileKind.dir)] }

/-- A concrete gamdl oracle used by witnesses. -/
def gamdlW : GamdlWorld :=
  { urlInfoFound := true, downloadQueue := [0] }

/-- Helper: `validate_cookies_path` returns the filesystem it was given,
since both primitives it calls are read-only. -/
theorem validate_cookies_path_fs_eq (fs : FS) (p : String) :
    (validate_cookies_path fs p).2 = fs := by
  simp only [validate_cookies_path, Path_resolve, Path_is_file]
  split <;> rfl

/-- Helper: after removing every entry at path `q`, nothing exists at
`q`. -/
theorem lookupKind_erase (entries : List (List String × FileKind)) (q : List String) :
    lookupKind (entries.filter (fun e => e.1 != q)) q = none := by
  induction entries with
  | nil => rfl
  | cons e es ih =>
    by_cases h : e.1 = q
    · simpa [lookupKind, List.filter, h] using ih
    · simp only [lookupKind, List.filter] at ih ⊢
      rw [show (e.1 != q) = true by simpa using h]
      rw [List.find?]
      rw [show (e.1 == q) = false by simpa using h]
      exact ih

/-- Helper: when a regular file exists at the resolved path, the validator
returns that path. -/
theorem validate_cookies_path_ok_eq (fs : FS) (p : String)
    (h : lookupKind fs.entries (resolvePath fs.cwd p) = some FileKind.file) :
    (validate_cookies_path fs p).1 = Except.ok (resolvePath fs.cwd p) := by
  simp [validate_cookies_path, Path_resolve, Path_is_file, h]

/-- Helper: when no regular file exists at the resolved path, the validator
raises `FileNotFoundError` with the fixed diagnostic message built around
the resolved path. -/
theorem validate_cookies_path_error_eq (fs : FS) (p : String)
    (h : lookupKind fs.entries (resolvePath fs.cwd p) ≠ some FileKind.file) :
    (validate_cookies_path fs p).1 = Except.error (PyError.fileNotFoundError
      ("Missing Apple Music cookies file at \x27" ++
        pathToString (resolvePath fs.cwd p) ++
        "\x27. Create a Netscape-format cookies.txt export before running downloads.")) := by
  simp [validate_cookies_path, Path_resolve, Path_is_file, h]

/-- Claim C1: for every path `p` that refers to an existing regular file,
`validate_cookies_path p` succeeds and returns the absolute, resolved form
of `p`. -/
theorem C1_existing_file_returns_resolved_path (fs : FS) (p : String)
    (h : lookupKind fs.entries (resolvePath fs.cwd p) = some FileKind.file) :
    (validate_cookies_path fs p).1 = Except.ok (resolvePath fs.cwd p) :=
  validate_cookies_path_ok_eq fs p h

/-- Witness for C1 at a concrete filesystem holding `/home/anu/cookies.txt`. -/
theorem C1_existing_file_returns_resolved_path_witness :
    lookupKind fsWith.entries (resolvePath fsWith.cwd "cookies.txt") =
      some FileKind.file ∧
    (validate_cookies_path fsWith "cookies.txt").1 =
      Except.ok (resolvePath fsWith.cwd "cookies.txt") :=
  ⟨by decide, C1_existing_file_returns_resolved_path fsWith "cookies.txt" (by decide)⟩

/-- Claim C2: for every path `p` with no regular file at its resolved form,
`validate_cookies_path p` fails with `FileNotFoundError`, and the message
contains the literal resolved absolute form of `p`. -/
theorem C2_missing_file_error_contains_path (fs : FS) (p : String)
    (h : lookupKind fs.entries (resolvePath fs.cwd p) ≠ some FileKind.file) :
    ∃ msg, (validate_cookies_path fs p).1 =
        Except.error (PyError.fileNotFoundError msg) ∧
      ∃ pre post, msg = pre ++ pathToString (resolvePath fs.cwd p) ++ post :=
  ⟨_, validate_cookies_path_error_eq fs p h,
    "Missing Apple Music cookies file at \x27",
    "\x27. Create a Netscape-format cookies.txt export before running downloads.",
    rfl⟩

/-- Witness for C2 at a concrete filesystem with no `cookies.txt`. -/
theorem C2_missing_file_error_contains_path_witness :
    lookupKind fsWithout.entries (resolvePath fsWithout.cwd "cookies.txt") ≠
      some FileKind.file ∧
    (∃ msg, (validate_cookies_path fsWithout "cookies.txt").1 =
        Except.error (PyError.fileNotFoundError msg) ∧
      ∃ pre post,
        msg = pre ++ pathToString (resolvePath fsWithout.cwd "cookies.txt") ++ post) :=
  ⟨by decide, C2_missing_file_error_contains_path fsWithout "cookies.txt" (by decide)⟩

/-- Claim C3: for every input path whose resolved form is not a regular
file, the error message is exactly the fixed diagnostic string with the
resolved absolute path interpolated. -/
theorem C3_error_message_exact (fs : FS) (p : String)
    (h : lookupKind fs.entries (resolvePath fs.cwd p) ≠ some FileKind.file) :
    (validate_cookies_path fs p).1 = Except.error (PyError.fileNotFoundError
      ("Missing Apple Music cookies file at \x27" ++
        pathToString (resolvePath fs.cwd p) ++
        "\x27. Create a Netscape-format cookies.txt export before running downloads.")) :=
  validate_cookies_path_error_eq fs p h

/-- Witness for C3 at a concrete filesystem and the absent path
`missing.txt`. -/
theorem C3_error_message_exact_witness :
    lookupKind fsWith.entries (resolvePath fsWith.cwd "missing.txt") ≠
      some FileKind.file ∧
    (validate_cookies_path fsWith "missing.txt").1 =
      Except.error (PyError.fileNotFoundError
        ("Missing Apple Music cookies file at \x27" ++
          pathToString (resolvePath fsWith.cwd "missing.txt") ++
          "\x27. Create a Netscape-format cookies.txt export before running downloads.")) :=
  ⟨by decide, C3_error_message_exact fsWith "missing.txt" (by decide)⟩

/-- Claim C4: when the resolved path exists but is not a regular file (a
directory or other object), the validator fails exactly as it does for a
non-existent path: same `FileNotFoundError` and same message as on the
filesystem with that entry erased.  Mere existence does not give success. -/
theorem C4_existing_non_file_same_error (fs : FS) (p : String) (k : FileKind)
    (hk : lookupKind fs.entries (resolvePath fs.cwd p) = some k)
    (hnf : k ≠ FileKind.file) :
    (validate_cookies_path fs p).1 = Except.error (PyError.fileNotFoundError
      ("Missing Apple Music cookies file at \x27" ++
        pathToString (resolvePath fs.cwd p) ++
        "\x27. Create a Netscape-format cookies.txt export before running downloads.")) ∧
    (validate_cookies_path fs p).1 =
      (validate_cookies_path
        { cwd := fs.cwd,
          entries := fs.entries.filter (fun e => e.1 != resolvePath fs.cwd p) } p).1 := by
  have hne : lookupKind fs.entries (resolvePath fs.cwd p) ≠ some FileKind.file := by
    rw [hk]
    intro hc
    exact hnf (Option.some.inj hc)
  have h1 := validate_cookies_path_error_eq fs p hne
  have hne2 :
      lookupKind (fs.entries.filter (fun e => e.1 != resolvePath fs.cwd p))
        (resolvePath fs.cwd p) ≠ some FileKind.file := by
    rw [lookupKind_erase]
    simp
  have h2 := validate_cookies_path_error_eq
    { cwd := fs.cwd,
      entries := fs.entries.filter (fun e => e.1 != resolvePath fs.cwd p) } p hne2
  exact ⟨h1, h1.trans h2.symm⟩

/-- Witness for C4 at a concrete filesystem where the path names the
directory `/home/anu/music`. -/
theorem C4_existing_non_file_same_error_witness :
    lookupKind fsWith.entries (resolvePath fsWith.cwd "music") = some FileKind.dir ∧
    FileKind.dir ≠ FileKind.file ∧
    ((validate_cookies_path fsWith "music").1 =
      Except.error (PyError.fileNotFoundError
        ("Missing Apple Music cookies file at \x27" ++
          pathToString (resolvePath fsWith.cwd "music") ++
          "\x27. Create a Netscape-format cookies.txt export before running downloads.")) ∧
    (validate_cookies_path fsWith "music").1 =
      (validate_cookies_path
        { cwd := fsWith.cwd,
          entries :=
            fsWith.entries.filter (fun e => e.1 != resolvePath fsWith.cwd "music") }
        "music").1) :=
  ⟨by decide, by decide,
    C4_existing_non_file_same_error fsWith "music" FileKind.dir (by decide) (by decide)⟩

/-- Claim C5: calling the validator with no argument is identical to
calling it with the literal relative name `cookies.txt`, which resolves
against the current working directory at call time (to `cwd/cookies.txt`). -/
theorem C5_default_is_cookies_txt (fs : FS) :
    validate_cookies_path_default fs = validate_cookies_path fs "cookies.txt" ∧
    resolvePath fs.cwd "cookies.txt" = fs.cwd ++ ["cookies.txt"] := by
  refine ⟨rfl, ?_⟩
  show normalizeSegs (if isAbsolutePath "cookies.txt" then [] else fs.cwd)
      (splitSegs "cookies.txt") = fs.cwd ++ ["cookies.txt"]
  rw [show isAbsolutePath "cookies.txt" = false from rfl,
    show splitSegs "cookies.txt" = ["cookies.txt"] from rfl]
  rfl

/-- Witness for C5 at a concrete filesystem. -/
theorem C5_default_is_cookies_txt_witness :
    validate_cookies_path_default fsWith = validate_cookies_path fsWith "cookies.txt" ∧
    resolvePath fsWith.cwd "cookies.txt" = fsWith.cwd ++ ["cookies.txt"] :=
  C5_default_is_cookies_txt fsWith

/-- Claim C6: with a fixed filesystem state, two successive calls to the
validator with the same input (the second running on the state the first
returned) produce the same result, and the state after both calls is the
original one. -/
theorem C6_idempotent (fs : FS) (p : String) :
    (validate_cookies_path ((validate_cookies_path fs p).2) p).1 =
      (validate_cookies_path fs p).1 ∧
    (validate_cookies_path ((validate_cookies_path fs p).2) p).2 = fs := by
  rw [validate_cookies_path_fs_eq fs p]
  exact ⟨rfl, validate_cookies_path_fs_eq fs p⟩

/-- Witness for C6 at a concrete filesystem and input. -/
theorem C6_idempotent_witness :
    (validate_cookies_path ((validate_cookies_path fsWith "cookies.txt").2)
      "cookies.txt").1 = (validate_cookies_path fsWith "cookies.txt").1 ∧
    (validate_cookies_path ((validate_cookies_path fsWith "cookies.txt").2)
      "cookies.txt").2 = fsWith :=
  C6_idempotent fsWith "cookies.txt"

/-- Claim C7: the validator leaves the filesystem unchanged, and so does
each primitive it calls (`Path.resolve`, `Path.is_file`): the component
only reads metadata, never creating or modifying anything. -/
theorem C7_no_filesystem_mutation (fs : FS) (p s : String) (q : List String) :
    (validate_cookies_path fs p).2 = fs ∧
    (Path_resolve fs s).2 = fs ∧
    (Path_is_file fs q).2 = fs :=
  ⟨validate_cookies_path_fs_eq fs p, rfl, rfl⟩

/-- Witness for C7 at a concrete filesystem. -/
theorem C7_no_filesystem_mutation_witness :
    (validate_cookies_path fsWithout "cookies.txt").2 = fsWithout ∧
    (Path_resolve fsWithout "cookies.txt").2 = fsWithout ∧
    (Path_is_file fsWithout ["etc"]).2 = fsWithout :=
  C7_no_filesystem_mutation fsWithout "cookies.txt" "cookies.txt" ["etc"]

/-- Claim C8: every outcome of the validator is either success or the
specific `FileNotFoundError` kind; that kind is distinguishable, by
constructor alone, both from the generic `OSError` kind and from success,
so callers can catch it without inspecting message text. -/
theorem C8_error_kind_catchable (fs : FS) (p : String) :
    ((∃ q, (validate_cookies_path fs p).1 = Except.ok q) ∨
      (∃ m, (validate_cookies_path fs p).1 =
        Except.error (PyError.fileNotFoundError m))) ∧
    (∀ m m2, PyError.fileNotFoundError m ≠ PyError.osError m2) ∧
    (∀ m q, (Except.error (PyError.fileNotFoundError m) :
      Except PyError (List String)) ≠ Except.ok q) := by
  refine ⟨?_, fun m m2 => by simp, fun m q => by simp⟩
  by_cases hc : lookupKind fs.entries (resolvePath fs.cwd p) = some FileKind.file
  · exact Or.inl ⟨_, validate_cookies_path_ok_eq fs p hc⟩
  · exact Or.inr ⟨_, validate_cookies_path_error_eq fs p hc⟩

/-- Witness for C8 at a concrete filesystem. -/
theorem C8_error_kind_catchable_witness :
    ((∃ q, (validate_cookies_path fsWithout "cookies.txt").1 = Except.ok q) ∨
      (∃ m, (validate_cookies_path fsWithout "cookies.txt").1 =
        Except.error (PyError.fileNotFoundError m))) ∧
    (∀ m m2, PyError.fileNotFoundError m ≠ PyError.osError m2) ∧
    (∀ m q, (Except.error (PyError.fileNotFoundError m) :
      Except PyError (List String)) ≠ Except.ok q) :=
  C8_error_kind_catchable fsWithout "cookies.txt"

/-- Claim C9: in `main`, the validator runs before any external-library
object is constructed (it is the first event of every trace), and when it
fails the trace is exactly the validator call: no session, interface or
downloader object is constructed and no download is attempted. -/
theorem C9_validate_first_gates_construction (fs : FS) (g : GamdlWorld) :
    (main_trace fs g).head? = some MainEvent.validateCookies ∧
    ((∃ e, (validate_cookies_path fs "cookies.txt").1 = Except.error e) →
      main_trace fs g = [MainEvent.validateCookies] ∧
      ∀ ev, ev ∈ main_trace fs g → ev = MainEvent.validateCookies) := by
  constructor
  · unfold main_trace validate_cookies_path_default
    split <;> rfl
  · rintro ⟨e, he⟩
    have ht : main_trace fs g = [MainEvent.validateCookies] := by
      unfold main_trace validate_cookies_path_default
      rw [he]
    refine ⟨ht, ?_⟩
    intro ev hev
    rw [ht] at hev
    simpa using hev

/-- Witness for C9 at a concrete filesystem where validation fails. -/
theorem C9_validate_first_gates_construction_witness :
    main_trace fsWithout gamdlW = [MainEvent.validateCookies] ∧
    ∀ ev, ev ∈ main_trace fsWithout gamdlW → ev = MainEvent.validateCookies :=
  (C9_validate_first_gates_construction fsWithout gamdlW).2
    ⟨PyError.fileNotFoundError
      ("Missing Apple Music cookies file at \x27/home/anu/cookies.txt\x27. " ++
        "Create a Netscape-format cookies.txt export before running downloads."),
      rfl⟩

/-- Claim C10: the empty string resolves to the current working directory;
when that directory exists (as a directory, not a regular file) the
validator raises `FileNotFoundError` with the message naming the absolute
working-directory path. -/
theorem C10_empty_string_resolves_to_cwd (fs : FS)
    (h : lookupKind fs.entries fs.cwd = some FileKind.dir) :
    resolvePath fs.cwd "" = fs.cwd ∧
    (validate_cookies_path fs "").1 = Except.error (PyError.fileNotFoundError
      ("Missing Apple Music cookies file at \x27" ++ pathToString fs.cwd ++
        "\x27. Create a Netscape-format cookies.txt export before running downloads.")) := by
  have hr : resolvePath fs.cwd "" = fs.cwd := by
    show normalizeSegs (if isAbsolutePath "" then [] else fs.cwd) (splitSegs "") = fs.cwd
    rw [show isAbsolutePath "" = false from rfl, show splitSegs "" = [] from rfl]
    rfl
  have hne : lookupKind fs.entries (resolvePath fs.cwd "") ≠ some FileKind.file := by
    rw [hr, h]
    simp
  have he := validate_cookies_path_error_eq fs "" hne
  rw [hr] at he
  exact ⟨hr, he⟩

/-- Witness for C10 at a concrete filesystem whose working directory
exists. -/
theorem C10_empty_string_resolves_to_cwd_witness :
    lookupKind fsWith.entries fsWith.cwd = some FileKind.dir ∧
    (resolvePath fsWith.cwd "" = fsWith.cwd ∧
    (validate_cookies_path fsWith "").1 = Except.error (PyError.fileNotFoundError
      ("Missing Apple Music cookies file at \x27" ++ pathToString fsWith.cwd ++
        "\x27. Create a Netscape-format cookies.txt export before running downloads."))) :=
  ⟨by decide, C10_empty_string_resolves_to_cwd fsWith (by decide)⟩

end AnuIndustries
